import Mathlib

/-!
Shallow embedding of `src/workshop/sales_data.py`: the `SalesData` class, a thin
data-access helper over an asyncpg connection pool.

Database effects are modelled by an explicit oracle (`Db`) giving the outcome of
pool acquisition, of the fixed information-schema query, and of `conn.fetch` for
each query string.  The mutable `self.pool` field is threaded explicitly: every
method takes the instance state and returns it alongside its result.  An
`Except.error` result of an operation models a Python exception propagating
unhandled to the caller; an `Except.ok` result models a normal return.  Logging
side effects are omitted, except in `connect` where the emitted log line is part
of the verified contract.
-/

namespace SalesDataModel

/-- A database cell value (the subset of Python values the helper handles). -/
inductive Value where
  | str (s : String)
  | int (n : Int)
  | bool (b : Bool)
  | null
deriving DecidableEq

/-- Python `str()` on a cell value, as used by `", ".join(map(str, values))`. -/
def Value.pyStr : Value → String
  | .str s => s
  | .int n => toString n
  | .bool b => if b then "True" else "False"
  | .null => "None"

/-- JSON values: the output domain of `json.dumps` and `DataFrame.to_json`.
The Python functions return serialized text; the embedding keeps the JSON
structure itself, which is what the specification talks about. -/
inductive Json where
  | str (s : String)
  | int (n : Int)
  | bool (b : Bool)
  | null
  | arr (elems : List Json)
  | obj (fields : List (String × Json))

/-- How a cell value appears in serialized JSON output. -/
def Value.toJson : Value → Json
  | .str s => .str s
  | .int n => .int n
  | .bool b => .bool b
  | .null => .null

/-- Top-level field names of a JSON object (empty for non-objects). -/
def Json.keys : Json → List String
  | .obj fields => fields.map (fun f => f.1)
  | _ => []

/-- Whether a JSON value is a string (as opposed to an object, array, ...). -/
def Json.isStr : Json → Bool
  | .str _ => true
  | _ => false

/-- A database exception; `message` is Python's `str(e)`. -/
structure DbError where
  message : String
deriving DecidableEq

/-- An asyncpg `Record`: an ordered sequence of column-name/value pairs. -/
abbrev Row := List (String × Value)

/-- One row of the information-schema query, which selects exactly
`table_name, column_name, data_type`. -/
abbrev SchemaRow := String × String × String

/-- Oracle for the behaviour of the underlying database library: the outcome of
`pool.acquire()`, of the fixed information-schema query (as a function of the
`$1` schema-name parameter), and of `conn.fetch` for each query string. -/
structure Db where
  acquire : Except DbError Unit
  fetchSchema : String → Except DbError (List SchemaRow)
  fetch : String → Except DbError (List Row)

/-- An opaque `asyncpg.Pool` handle. -/
abbrev Pool := Nat

/-- The `SalesData` instance state: `self.pool : Optional[asyncpg.Pool]`. -/
structure SalesData where
  pool : Option Pool
deriving DecidableEq

/-- The module constant `DB_SCHEMA`, equal to the string contoso. -/
def DB_SCHEMA : String := "contoso"

/-- Embeds `SalesData.connect`: it tries `asyncpg.create_pool`, assigning the
pool on success and logging an info line, while the except clause catches every
failure and logs it.  The result of `asyncpg.create_pool` is supplied as an
argument; the state is returned paired with the emitted log line.  Since the
except clause catches every failure, the returned value is always `.ok`. -/
def SalesData.connect (s : SalesData) (createResult : Except DbError Pool) :
    Except DbError SalesData × List String :=
  match createResult with
  | .ok p => (.ok { pool := some p }, ["Database connection pool created."])
  | .error _ => (.ok s, ["Failed to connect to the database"])

/-- Embeds `SalesData.close`: when a pool is present it awaits the pool close
and clears the handle, otherwise it does nothing.  Returns the new state paired
with the list of pools whose connections were released by this call. -/
def SalesData.close (s : SalesData) : SalesData × List Pool :=
  match s.pool with
  | some p => ({ pool := none }, [p])
  | none => (s, [])

/-- Embeds indexing an asyncpg record by column name: the value of the first
pair with the given key, `none` when the lookup raises a key error. -/
def rowLookup (row : Row) (column : String) : Option Value :=
  (row.find? (fun kv => kv.1 = column)).map (fun kv => kv.2)

/-- The comprehension `[row[column] for row in rows]`: `some` of the column
values when every row has the column, `none` when a lookup raises `KeyError`. -/
def extractColumn : List Row → String → Option (List Value)
  | [], _ => some []
  | row :: rest, column =>
    match rowLookup row column with
    | none => none
    | some v =>
      match extractColumn rest column with
      | none => none
      | some vs => some (v :: vs)

/-- Result value of `SalesData.fetch_list`.  The `if not self.pool` guard
returns `[]`; `self.pool.acquire()` happens outside the `try`, so its failure
propagates (`.error`); the `try` covers the fetch and the per-row column
lookups, both converted to `[]` on failure. -/
def fetchListResult (s : SalesData) (db : Db) (query column : String) :
    Except DbError (List Value) :=
  match s.pool with
  | none => .ok []
  | some _ =>
    match db.acquire with
    | .error e => .error e
    | .ok _ =>
      match db.fetch query with
      | .error _ => .ok []
      | .ok rows =>
        match extractColumn rows column with
        | some values => .ok values
        | none => .ok []

/-- Embeds `SalesData.fetch_list`.  The method never assigns the pool field,
so the state component of the result is the input state. -/
def SalesData.fetch_list (s : SalesData) (db : Db) (query column : String) :
    Except DbError (List Value) × SalesData :=
  (fetchListResult s db query column, s)

/-- The descriptor built for one schema row: column name, colon, space, data type. -/
def columnDescriptor (r : SchemaRow) : String := r.2.1 ++ ": " ++ r.2.2

/-- One step of `tables.setdefault(row["table_name"], []).append(desc)` on an
insertion-ordered association list. -/
def appendToTable : List (String × List String) → String → String →
    List (String × List String)
  | [], name, desc => [(name, [desc])]
  | (t, cols) :: rest, name, desc =>
    if t = name then (t, cols ++ [desc]) :: rest
    else (t, cols) :: appendToTable rest name desc

/-- The grouping loop of `get_database_info` over the schema rows. -/
def groupTables (rows : List SchemaRow) : List (String × List String) :=
  rows.foldl (fun tables r => appendToTable tables r.1 (columnDescriptor r)) []

/-- Rendering of the grouped tables: the newline join of one line per table,
each line being the word Table, the schema-qualified table name, the Columns
label, and the comma join of the descriptors. -/
def schemaInfoString (rows : List SchemaRow) : String :=
  String.intercalate "\n"
    ((groupTables rows).map
      (fun tc => "Table " ++ DB_SCHEMA ++ "." ++ tc.1 ++ ": Columns: " ++
        String.intercalate ", " tc.2))

/-- The comma join of the stringified values, as in the Python join of map str. -/
def joinValues (values : List Value) : String :=
  String.intercalate ", " (values.map Value.pyStr)

/-- The four fixed distinct-value queries of `get_database_info` (the `queries`
dict and the `results` comprehension), and the metadata lines appended for
them, in dict order.  Each `fetch_list` call may propagate an acquisition
failure, which this comprehension passes on. -/
def SalesData.metadataSuffix (s : SalesData) (db : Db) : Except DbError String :=
  match (s.fetch_list db "SELECT DISTINCT region FROM contoso.sales_data;" "region").1 with
  | .error e => .error e
  | .ok regions =>
    match (s.fetch_list db "SELECT DISTINCT product_type FROM contoso.sales_data;" "product_type").1 with
    | .error e => .error e
    | .ok productTypes =>
      match (s.fetch_list db "SELECT DISTINCT main_category FROM contoso.sales_data;" "main_category").1 with
      | .error e => .error e
      | .ok categories =>
        match (s.fetch_list db "SELECT DISTINCT year FROM contoso.sales_data ORDER BY year;" "year").1 with
        | .error e => .error e
        | .ok years =>
          .ok ("\nRegions: " ++ joinValues regions ++
            "\nProduct Types: " ++ joinValues productTypes ++
            "\nProduct Categories: " ++ joinValues categories ++
            "\nReporting Years: " ++ joinValues years)

/-- Result value of `SalesData.get_database_info`: the not-connected guard,
the schema query (whose failure alone is converted to the fixed error string),
the grouping and rendering, then the appended metadata lines. -/
def infoResult (s : SalesData) (db : Db) : Except DbError String :=
  match s.pool with
  | none => .ok "Database connection is not established."
  | some _ =>
    match db.acquire with
    | .error e => .error e
    | .ok _ =>
      match db.fetchSchema DB_SCHEMA with
      | .error _ => .ok "Error fetching schema information."
      | .ok schema_data =>
        match s.metadataSuffix db with
        | .error e => .error e
        | .ok suffix => .ok (schemaInfoString schema_data ++ suffix)

/-- Embeds `SalesData.get_database_info`.  The method never assigns the pool field. -/
def SalesData.get_database_info (s : SalesData) (db : Db) :
    Except DbError String × SalesData :=
  (infoResult s db, s)

/-- Embeds building the pandas DataFrame from the rows with the first row
supplying the column labels, serialized with the split orientation and the
index disabled: column names taken from the first row, each data row its own
values positionally, and no index field. -/
def dataFrameSplitJson (r0 : Row) (rest : List Row) : Json :=
  Json.obj
    [("columns", Json.arr (r0.map (fun kv => Json.str kv.1))),
     ("data", Json.arr ((r0 :: rest).map
        (fun r => Json.arr (r.map (fun kv => kv.2.toJson)))))]

/-- Result value of `SalesData.async_fetch_sales_data_using_sqlite_query`.
The not-connected guard returns the error object; `self.pool.acquire()` is
outside the `try`, so its failure propagates; the `try` covers the fetch and
the DataFrame serialization, converting failures to the error/query object. -/
def salesQueryResult (s : SalesData) (db : Db) (postgres_query : String) :
    Except DbError Json :=
  match s.pool with
  | none => .ok (.obj [("error", .str "Database connection is not established.")])
  | some _ =>
    match db.acquire with
    | .error e => .error e
    | .ok _ =>
      match db.fetch postgres_query with
      | .error e => .ok (.obj [("error", .str e.message), ("query", .str postgres_query)])
      | .ok [] => .ok (.str "The query returned no results. Try a different question.")
      | .ok (r0 :: rest) => .ok (dataFrameSplitJson r0 rest)

/-- Embeds `SalesData.async_fetch_sales_data_using_sqlite_query`.  The method
never assigns the pool field. -/
def SalesData.async_fetch_sales_data_using_sqlite_query (s : SalesData) (db : Db)
    (postgres_query : String) : Except DbError Json × SalesData :=
  (salesQueryResult s db postgres_query, s)

/-- Whether an operation result is `.ok`: `true` iff no exception escaped. -/
def exceptOk {α : Type} : Except DbError α → Bool
  | .ok _ => true
  | .error _ => false

/-- Specification-side grouping (stated from the spec's words, to be compared
with `groupTables`): one entry per table name in first-seen order, each table
collecting the descriptors of all of its rows in input order. -/
def groupSpec : List SchemaRow → List (String × List String)
  | [] => []
  | r :: rs =>
    (r.1, ((r :: rs).filter (fun x => x.1 = r.1)).map columnDescriptor)
      :: groupSpec (rs.filter (fun x => x.1 ≠ r.1))
termination_by rows => rows.length
decreasing_by
  simp only [List.length_cons]
  exact Nat.lt_succ_of_le (List.length_filter_le _ _)

/-- Intermediate form for relating the fold in `groupTables` to `groupSpec`:
tables already in the accumulator keep their place and collect their remaining
rows; the rest of the rows are grouped as by `groupSpec`. -/
def mergeSpec : List (String × List String) → List SchemaRow → List (String × List String)
  | [], rows => groupSpec rows
  | (t, cs) :: acc, rows =>
    (t, cs ++ (rows.filter (fun x => x.1 = t)).map columnDescriptor)
      :: mergeSpec acc (rows.filter (fun x => x.1 ≠ t))

theorem mergeSpec_nil : ∀ acc : List (String × List String), mergeSpec acc [] = acc := by
  intro acc
  induction acc with
  | nil => simp [mergeSpec, groupSpec]
  | cons hd tl ih =>
    obtain ⟨t, cs⟩ := hd
    simp [mergeSpec, ih]

theorem mergeSpec_step (r : SchemaRow) :
    ∀ (acc : List (String × List String)) (rs : List SchemaRow),
      mergeSpec (appendToTable acc r.1 (columnDescriptor r)) rs = mergeSpec acc (r :: rs) := by
  intro acc
  induction acc with
  | nil =>
    intro rs
    simp [appendToTable, mergeSpec, groupSpec, List.filter_cons]
  | cons hd tl ih =>
    intro rs
    obtain ⟨t, cs⟩ := hd
    by_cases h : t = r.1
    · subst h
      simp [appendToTable, mergeSpec, List.filter_cons, List.append_assoc]
    · have h2 : ¬(r.1 = t) := fun hh => h hh.symm
      simp only [appendToTable, if_neg h, mergeSpec]
      rw [ih]
      simp [mergeSpec, List.filter_cons, h2]

theorem foldl_mergeSpec :
    ∀ (rows : List SchemaRow) (acc : List (String × List String)),
      rows.foldl (fun tables r => appendToTable tables r.1 (columnDescriptor r)) acc =
        mergeSpec acc rows := by
  intro rows
  induction rows with
  | nil => intro acc; simp [mergeSpec_nil]
  | cons r rs ih =>
    intro acc
    simp only [List.foldl_cons]
    rw [ih, mergeSpec_step]

/-- The source's insertion-ordered dict grouping agrees with the spec-side
first-seen grouping. -/
theorem groupTables_eq_groupSpec (rows : List SchemaRow) :
    groupTables rows = groupSpec rows := by
  rw [groupTables, foldl_mergeSpec]
  rfl

/-- A query-execution result is never an escaped exception once acquisition
has succeeded (the `try` block converts every later failure). -/
theorem fetchListResult_ok (s : SalesData) (db : Db) (q c : String)
    (hacq : db.acquire = .ok ()) : exceptOk (fetchListResult s db q c) = true := by
  unfold fetchListResult
  cases hp : s.pool with
  | none => rfl
  | some p =>
    rw [hacq]
    cases hf : db.fetch q with
    | error e => rfl
    | ok rows =>
      cases he : extractColumn rows c <;> simp [he, exceptOk]

theorem exceptOk_exists {α : Type} {x : Except DbError α} (h : exceptOk x = true) :
    ∃ v, x = .ok v := by
  cases x with
  | ok v => exact ⟨v, rfl⟩
  | error e => simp [exceptOk] at h

theorem metadataSuffix_ok (s : SalesData) (db : Db) (hacq : db.acquire = .ok ()) :
    ∃ v, s.metadataSuffix db = .ok v := by
  obtain ⟨v1, h1⟩ := exceptOk_exists (fetchListResult_ok s db
    "SELECT DISTINCT region FROM contoso.sales_data;" "region" hacq)
  obtain ⟨v2, h2⟩ := exceptOk_exists (fetchListResult_ok s db
    "SELECT DISTINCT product_type FROM contoso.sales_data;" "product_type" hacq)
  obtain ⟨v3, h3⟩ := exceptOk_exists (fetchListResult_ok s db
    "SELECT DISTINCT main_category FROM contoso.sales_data;" "main_category" hacq)
  obtain ⟨v4, h4⟩ := exceptOk_exists (fetchListResult_ok s db
    "SELECT DISTINCT year FROM contoso.sales_data ORDER BY year;" "year" hacq)
  unfold SalesData.metadataSuffix
  simp only [SalesData.fetch_list]
  rw [h1, h2, h3, h4]
  exact ⟨_, rfl⟩

theorem infoResult_ok (s : SalesData) (db : Db) (hacq : db.acquire = .ok ()) :
    exceptOk (infoResult s db) = true := by
  unfold infoResult
  cases hp : s.pool with
  | none => rfl
  | some p =>
    rw [hacq]
    cases hsch : db.fetchSchema DB_SCHEMA with
    | error e => rfl
    | ok rows =>
      obtain ⟨v, hv⟩ := metadataSuffix_ok s db hacq
      rw [hv]
      rfl

theorem salesQueryResult_ok (s : SalesData) (db : Db) (q : String)
    (hacq : db.acquire = .ok ()) : exceptOk (salesQueryResult s db q) = true := by
  unfold salesQueryResult
  cases hp : s.pool with
  | none => rfl
  | some p =>
    rw [hacq]
    cases hf : db.fetch q with
    | error e => rfl
    | ok rows =>
      cases rows with
      | nil => rfl
      | cons r0 rest => rfl

/-- Claim C1: while the pool is absent, `fetch_list` returns the empty list,
`get_database_info` returns the fixed not-connected string, and the sales-data
query operation returns the JSON object with the not-connected error message;
none of them raises, and the state is unchanged. -/
theorem disconnected_query_ops (s : SalesData) (db : Db) (q c : String)
    (h : s.pool = none) :
    s.fetch_list db q c = (.ok [], s) ∧
    s.get_database_info db = (.ok "Database connection is not established.", s) ∧
    s.async_fetch_sales_data_using_sqlite_query db q =
      (.ok (.obj [("error", .str "Database connection is not established.")]), s) := by
  refine ⟨?_, ?_, ?_⟩ <;>
    simp [SalesData.fetch_list, fetchListResult, SalesData.get_database_info, infoResult,
      SalesData.async_fetch_sales_data_using_sqlite_query, salesQueryResult, h]

/-- A database whose every call fails, used to witness C1: the disconnected
guard answers before any database call happens. -/
def dbDown : Db :=
  { acquire := .error { message := "down" },
    fetchSchema := fun _ => .error { message := "down" },
    fetch := fun _ => .error { message := "down" } }

/-- Witness for C1 at a concrete disconnected instance. -/
theorem disconnected_query_ops_witness :
    SalesData.fetch_list { pool := none } dbDown "SELECT 1" "x" =
      (.ok [], { pool := none }) ∧
    SalesData.get_database_info { pool := none } dbDown =
      (.ok "Database connection is not established.", { pool := none }) ∧
    SalesData.async_fetch_sales_data_using_sqlite_query { pool := none } dbDown "SELECT 1" =
      (.ok (.obj [("error", .str "Database connection is not established.")]),
        { pool := none }) :=
  disconnected_query_ops { pool := none } dbDown "SELECT 1" "x" rfl

/-- Claim C2: with a pool present and a fetch returning a non-empty row list,
the sales-data query operation returns the split-orientation JSON object whose
`columns` array holds the column names of the first row and whose `data` array
holds each row's values in row order (each row in its column order); its only
fields are `columns` and `data`, so no index field is present. -/
theorem async_fetch_split_orientation (s : SalesData) (db : Db) (q : String)
    (p : Pool) (r0 : Row) (rest : List Row)
    (hpool : s.pool = some p) (hacq : db.acquire = .ok ())
    (hfetch : db.fetch q = .ok (r0 :: rest)) :
    (s.async_fetch_sales_data_using_sqlite_query db q).1 =
      .ok (Json.obj
        [("columns", Json.arr (r0.map (fun kv => Json.str kv.1))),
         ("data", Json.arr ((r0 :: rest).map
            (fun r => Json.arr (r.map (fun kv => Value.toJson kv.2)))))]) ∧
    Json.keys (dataFrameSplitJson r0 rest) = ["columns", "data"] ∧
    "index" ∉ Json.keys (dataFrameSplitJson r0 rest) := by
  refine ⟨?_, rfl, by simp [dataFrameSplitJson, Json.keys]⟩
  simp [SalesData.async_fetch_sales_data_using_sqlite_query, salesQueryResult,
    dataFrameSplitJson, hpool, hacq, hfetch]

/-- A database returning the two example rows of the claim. -/
def dbTwoRows : Db :=
  { acquire := .ok (),
    fetchSchema := fun _ => .ok [],
    fetch := fun _ => .ok
      [[("region", Value.str "West"), ("year", Value.int 2023)],
       [("region", Value.str "East"), ("year", Value.int 2022)]] }

/-- Witness for C2 on the claim's example rows. -/
theorem async_fetch_split_orientation_witness :
    (SalesData.async_fetch_sales_data_using_sqlite_query { pool := some 0 } dbTwoRows
        "SELECT region, year FROM contoso.sales_data").1 =
      .ok (Json.obj
        [("columns", Json.arr [Json.str "region", Json.str "year"]),
         ("data", Json.arr
            [Json.arr [Json.str "West", Json.int 2023],
             Json.arr [Json.str "East", Json.int 2022]])]) ∧
    Json.keys (dataFrameSplitJson
        [("region", Value.str "West"), ("year", Value.int 2023)]
        [[("region", Value.str "East"), ("year", Value.int 2022)]]) =
      ["columns", "data"] ∧
    "index" ∉ Json.keys (dataFrameSplitJson
        [("region", Value.str "West"), ("year", Value.int 2023)]
        [[("region", Value.str "East"), ("year", Value.int 2022)]]) :=
  async_fetch_split_orientation { pool := some 0 } dbTwoRows
    "SELECT region, year FROM contoso.sales_data" 0
    [("region", Value.str "West"), ("year", Value.int 2023)]
    [[("region", Value.str "East"), ("year", Value.int 2022)]] rfl rfl rfl

/-- Claim C3: with a pool present, a query whose execution raises a database
error with message `m` makes the sales-data query operation return the JSON
object with fields `error` (the message) and `query` (the original query text),
without raising. -/
theorem async_fetch_error_payload (s : SalesData) (db : Db) (q : String)
    (p : Pool) (m : String)
    (hpool : s.pool = some p) (hacq : db.acquire = .ok ())
    (hfetch : db.fetch q = .error { message := m }) :
    (s.async_fetch_sales_data_using_sqlite_query db q).1 =
      .ok (.obj [("error", .str m), ("query", .str q)]) := by
  simp [SalesData.async_fetch_sales_data_using_sqlite_query, salesQueryResult,
    hpool, hacq, hfetch]

/-- A database whose query execution raises the claim's example error. -/
def dbSyntaxError : Db :=
  { acquire := .ok (),
    fetchSchema := fun _ => .ok [],
    fetch := fun _ => .error { message := "syntax error" } }

/-- Witness for C3 on the claim's example error message. -/
theorem async_fetch_error_payload_witness :
    (SalesData.async_fetch_sales_data_using_sqlite_query { pool := some 0 } dbSyntaxError
        "SELEC 1").1 =
      .ok (.obj [("error", .str "syntax error"), ("query", .str "SELEC 1")]) :=
  async_fetch_error_payload { pool := some 0 } dbSyntaxError "SELEC 1" 0
    "syntax error" rfl rfl rfl

/-- Claim C4: with a pool present, a query whose execution succeeds with zero
rows makes the sales-data query operation return the fixed message as a JSON
string value - a string, not an object. -/
theorem async_fetch_no_results_string (s : SalesData) (db : Db) (q : String)
    (p : Pool)
    (hpool : s.pool = some p) (hacq : db.acquire = .ok ())
    (hfetch : db.fetch q = .ok []) :
    (s.async_fetch_sales_data_using_sqlite_query db q).1 =
      .ok (.str "The query returned no results. Try a different question.") ∧
    Json.isStr (.str "The query returned no results. Try a different question.") = true ∧
    Json.keys (.str "The query returned no results. Try a different question.") = [] := by
  refine ⟨?_, rfl, rfl⟩
  simp [SalesData.async_fetch_sales_data_using_sqlite_query, salesQueryResult,
    hpool, hacq, hfetch]

/-- A database whose query execution returns zero rows. -/
def dbNoRows : Db :=
  { acquire := .ok (),
    fetchSchema := fun _ => .ok [],
    fetch := fun _ => .ok [] }

/-- Witness for C4 at a concrete zero-row query. -/
theorem async_fetch_no_results_string_witness :
    (SalesData.async_fetch_sales_data_using_sqlite_query { pool := some 0 } dbNoRows
        "SELECT 1 WHERE FALSE").1 =
      .ok (.str "The query returned no results. Try a different question.") ∧
    Json.isStr (.str "The query returned no results. Try a different question.") = true ∧
    Json.keys (.str "The query returned no results. Try a different question.") = [] :=
  async_fetch_no_results_string { pool := some 0 } dbNoRows "SELECT 1 WHERE FALSE" 0
    rfl rfl rfl

/-- Claim C5: with a pool present, `get_database_info` renders the schema rows
grouped by table - one entry per table in first-seen order, each table's
descriptors in input row order (`groupTables rows = groupSpec rows`) - and
renders one line per table as `Table contoso.<table>: Columns: <comma-joined
descriptors>`, followed by the metadata suffix. -/
theorem get_database_info_grouping (s : SalesData) (db : Db) (p : Pool)
    (rows : List SchemaRow) (suffix : String)
    (hpool : s.pool = some p) (hacq : db.acquire = .ok ())
    (hschema : db.fetchSchema DB_SCHEMA = .ok rows)
    (hmeta : s.metadataSuffix db = .ok suffix) :
    (s.get_database_info db).1 = .ok (schemaInfoString rows ++ suffix) ∧
    groupTables rows = groupSpec rows ∧
    schemaInfoString rows = String.intercalate "\n"
      ((groupSpec rows).map
        (fun tc => "Table contoso." ++ tc.1 ++ ": Columns: " ++
          String.intercalate ", " tc.2)) := by
  refine ⟨?_, groupTables_eq_groupSpec rows, ?_⟩
  · simp [SalesData.get_database_info, infoResult, hpool, hacq, hschema, hmeta]
  · rw [schemaInfoString, groupTables_eq_groupSpec]
    rfl

/-- A database returning the claim's example introspection rows and empty
distinct-value lists. -/
def dbSchemaRows : Db :=
  { acquire := .ok (),
    fetchSchema := fun _ => .ok
      [("orders", "id", "integer"), ("orders", "total", "numeric"),
       ("customers", "name", "text")],
    fetch := fun _ => .ok [] }

/-- Witness for C5 on the claim's example rows: the orders line carries both
descriptors in input order and precedes the customers line. -/
theorem get_database_info_grouping_witness :
    (SalesData.get_database_info { pool := some 0 } dbSchemaRows).1 =
      .ok ("Table contoso.orders: Columns: id: integer, total: numeric\nTable contoso.customers: Columns: name: text" ++
        "\nRegions: \nProduct Types: \nProduct Categories: \nReporting Years: ") ∧
    groupTables
        [("orders", "id", "integer"), ("orders", "total", "numeric"),
         ("customers", "name", "text")] =
      groupSpec
        [("orders", "id", "integer"), ("orders", "total", "numeric"),
         ("customers", "name", "text")] ∧
    schemaInfoString
        [("orders", "id", "integer"), ("orders", "total", "numeric"),
         ("customers", "name", "text")] = String.intercalate "\n"
      ((groupSpec
          [("orders", "id", "integer"), ("orders", "total", "numeric"),
           ("customers", "name", "text")]).map
        (fun tc => "Table contoso." ++ tc.1 ++ ": Columns: " ++
          String.intercalate ", " tc.2)) :=
  get_database_info_grouping { pool := some 0 } dbSchemaRows 0
    [("orders", "id", "integer"), ("orders", "total", "numeric"),
     ("customers", "name", "text")]
    "\nRegions: \nProduct Types: \nProduct Categories: \nReporting Years: "
    rfl rfl rfl rfl

/-- A connected database whose `pool.acquire()` raises. -/
def dbAcquireFailure : Db :=
  { acquire := .error { message := "connection acquisition failed" },
    fetchSchema := fun _ => .ok [],
    fetch := fun _ => .ok [] }

/-- Counterexample to claim C6: in all three query operations the
`self.pool.acquire()` call sits outside the `try` block, so with a pool present
a failure of connection acquisition propagates to the caller as an unhandled
fault instead of being converted to a normally-typed value. -/
theorem acquire_failure_propagates :
    (SalesData.fetch_list { pool := some 0 } dbAcquireFailure "SELECT 1" "x").1 =
      .error { message := "connection acquisition failed" } ∧
    (SalesData.get_database_info { pool := some 0 } dbAcquireFailure).1 =
      .error { message := "connection acquisition failed" } ∧
    (SalesData.async_fetch_sales_data_using_sqlite_query { pool := some 0 }
        dbAcquireFailure "SELECT 1").1 =
      .error { message := "connection acquisition failed" } :=
  ⟨rfl, rfl, rfl⟩

/-- Claim C6 (amended): whenever connection acquisition succeeds, every query
operation returns a normally-typed value - failures of query execution and of
result processing are caught at the point of the database call and never
propagate to the caller; only a connection-acquisition failure on a connected
instance escapes. -/
theorem query_ops_ok_when_acquire_ok (s : SalesData) (db : Db) (q c : String)
    (hacq : db.acquire = .ok ()) :
    exceptOk (s.fetch_list db q c).1 = true ∧
    exceptOk (s.get_database_info db).1 = true ∧
    exceptOk (s.async_fetch_sales_data_using_sqlite_query db q).1 = true :=
  ⟨fetchListResult_ok s db q c hacq, infoResult_ok s db hacq,
    salesQueryResult_ok s db q hacq⟩

/-- A database whose acquisition succeeds but whose every query raises. -/
def dbQueriesFail : Db :=
  { acquire := .ok (),
    fetchSchema := fun _ => .error { message := "boom" },
    fetch := fun _ => .error { message := "boom" } }

/-- Witness for the amended C6: with acquisition succeeding, even a database
whose every query raises yields normal values from all three operations. -/
theorem query_ops_ok_when_acquire_ok_witness :
    exceptOk (SalesData.fetch_list { pool := some 0 } dbQueriesFail "SELECT 1" "x").1 = true ∧
    exceptOk (SalesData.get_database_info { pool := some 0 } dbQueriesFail).1 = true ∧
    exceptOk (SalesData.async_fetch_sales_data_using_sqlite_query { pool := some 0 }
        dbQueriesFail "SELECT 1").1 = true :=
  query_ops_ok_when_acquire_ok { pool := some 0 } dbQueriesFail "SELECT 1" "x" rfl

/-- Claim C7: when pool creation fails, `connect` catches the exception, logs
the failure, returns normally (`.ok`), and the pool handle stays absent. -/
theorem connect_failure_swallowed (s : SalesData) (e : DbError) (h : s.pool = none) :
    s.connect (.error e) = (.ok { pool := none }, ["Failed to connect to the database"]) := by
  have hs : s = { pool := none } := by
    cases s
    simp_all
  rw [hs]
  rfl

/-- Witness for C7 at a concrete creation failure. -/
theorem connect_failure_swallowed_witness :
    SalesData.connect { pool := none } (.error { message := "connection refused" }) =
      (.ok { pool := none }, ["Failed to connect to the database"]) :=
  connect_failure_swallowed { pool := none } { message := "connection refused" } rfl

/-- Claim C8: `close` with a pool present releases that pool and clears the
handle; `close` with no pool present releases nothing and leaves the state
unchanged; hence the second of two consecutive `close` calls is a no-op that
does not fail. -/
theorem close_idempotent_spec (s t : SalesData) (p : Pool)
    (hs : s.pool = some p) (ht : t.pool = none) :
    s.close = ({ pool := none }, [p]) ∧ t.close = (t, []) ∧
    s.close.1.close = (s.close.1, []) := by
  have hs2 : s = { pool := some p } := by cases s; simp_all
  have ht2 : t = { pool := none } := by cases t; simp_all
  subst hs2
  subst ht2
  exact ⟨rfl, rfl, rfl⟩

/-- Witness for C8 at a concrete connected and disconnected state. -/
theorem close_idempotent_spec_witness :
    SalesData.close { pool := some 0 } = ({ pool := none }, [0]) ∧
    SalesData.close { pool := none } = ({ pool := none }, []) ∧
    (SalesData.close { pool := some 0 }).1.close =
      ((SalesData.close { pool := some 0 }).1, []) :=
  close_idempotent_spec { pool := some 0 } { pool := none } 0 rfl rfl

/-- Claim C9: the query operations return the pool handle field unchanged -
only `connect` and `close` write `self.pool`; `fetch_list`,
`get_database_info` and the sales-data query operation only read it. -/
theorem query_ops_preserve_pool (s : SalesData) (db : Db) (q c : String) :
    (s.fetch_list db q c).2 = s ∧
    (s.get_database_info db).2 = s ∧
    (s.async_fetch_sales_data_using_sqlite_query db q).2 = s :=
  ⟨rfl, rfl, rfl⟩

/-- Claim C10: with a pool present, when the returned rows lack the requested
column, the per-row lookup's `KeyError` is caught inside the `try` and
`fetch_list` returns the empty list instead of raising. -/
theorem fetch_list_missing_column (s : SalesData) (db : Db) (q c : String)
    (p : Pool) (rows : List Row)
    (hpool : s.pool = some p) (hacq : db.acquire = .ok ())
    (hfetch : db.fetch q = .ok rows)
    (hmiss : ∀ row ∈ rows, rowLookup row c = none) :
    (s.fetch_list db q c).1 = .ok [] := by
  cases rows with
  | nil =>
    simp [SalesData.fetch_list, fetchListResult, hpool, hacq, hfetch, extractColumn]
  | cons r rest =>
    have h0 : rowLookup r c = none := hmiss r (List.mem_cons_self r rest)
    simp [SalesData.fetch_list, fetchListResult, hpool, hacq, hfetch, extractColumn, h0]

/-- A database returning one row that has no `year` column. -/
def dbWrongColumn : Db :=
  { acquire := .ok (),
    fetchSchema := fun _ => .ok [],
    fetch := fun _ => .ok [[("region", Value.str "West")]] }

/-- Witness for C10: a returned row without the requested column yields `[]`. -/
theorem fetch_list_missing_column_witness :
    (SalesData.fetch_list { pool := some 0 } dbWrongColumn
        "SELECT region FROM contoso.sales_data" "year").1 = .ok [] :=
  fetch_list_missing_column { pool := some 0 } dbWrongColumn
    "SELECT region FROM contoso.sales_data" "year" 0 [[("region", Value.str "West")]]
    rfl rfl rfl (by intro row hr; simp at hr; subst hr; rfl)

end SalesDataModel
